import Mathlib

/-!
Shallow embedding of the MIDI atom codec of lv2rs-core
(src/midi/src/atom.rs) and the scalar-atom reference widening
(src/src/scalar.rs).

Bytes are modelled as Nat; arithmetic that happens on Rust u8 values is
reduced mod 256 where the source computes in u8.  The writing-frame sink
(external collaborator, spec section 6) is modelled as an append-only list
of bytes with a hard capacity; a write that would exceed the capacity
fails, matching the sink abstraction of the spec.  Fallible Rust code
returning Result is modelled with Except; a Rust panic (an out-of-bounds
slice index) is modelled as a third, distinguished outcome of a DecodeResult
type, since a panic is observably different from both Ok and Err.
-/

/-- Outcome of a decoding operation that can also panic: the source indexes
into a slice with the non-short-circuiting boolean operator so that an
out-of-bounds access (a Rust panic) is reachable; the model makes that
outcome explicit. -/
inductive DecodeResult (α : Type) where
  | ok (value : α)
  | err
  | panic
deriving DecidableEq, Repr

/-- Modelled from the spec: the writing-frame sink of lv2rs-atom is not
under src/ (it is an external collaborator, spec section 6: an append-only,
growable destination with a hard capacity limit whose writes return a
count/failure signal).  The sink is a list of already-written bytes plus
a byte capacity. -/
structure Sink where
  written : List Nat
  capacity : Nat
deriving DecidableEq, Repr

/-- Modelled from the spec: write_sized of the sink abstraction appends one
byte, failing (not undefined behaviour) when the capacity is exceeded. -/
def write_sized (w : Sink) (byte : Nat) : Except Unit Sink :=
  if w.written.length + 1 ≤ w.capacity then
    Except.ok { written := w.written ++ [byte], capacity := w.capacity }
  else
    Except.error ()

/-- Modelled from the spec: write_raw of the sink abstraction appends N raw
bytes, failing when the capacity is exceeded. -/
def write_raw (w : Sink) (bytes : List Nat) : Except Unit Sink :=
  if w.written.length + bytes.length ≤ w.capacity then
    Except.ok { written := w.written ++ bytes, capacity := w.capacity }
  else
    Except.error ()

/-- Modelled from the spec: the status-byte constants live in
src/midi/src/status_bytes.rs which is not under src/.  Values follow the
spec's wire-layout table (section 6) and the channel-voice family
0x80..0xE0 in the variant order NoteOff..PitchBendChange (section 4.1,
with NoteOn base 0x90 and PitchBendChange base 0xE0 fixed by the spec's
examples). -/
def NOTE_OFF_STATUS : Nat := 0x80

/-- Modelled from the spec: see NOTE_OFF_STATUS. -/
def NOTE_ON_STATUS : Nat := 0x90

/-- Modelled from the spec: see NOTE_OFF_STATUS. -/
def POLY_KEY_PRESSURE_STATUS : Nat := 0xA0

/-- Modelled from the spec: see NOTE_OFF_STATUS. -/
def CONTROL_CHANGE_STATUS : Nat := 0xB0

/-- Modelled from the spec: see NOTE_OFF_STATUS. -/
def PROGRAM_CHANGE_STATUS : Nat := 0xC0

/-- Modelled from the spec: see NOTE_OFF_STATUS. -/
def CHANNEL_PRESSURE_STATUS : Nat := 0xD0

/-- Modelled from the spec: see NOTE_OFF_STATUS. -/
def PITCH_BEND_CHANGE_STATUS : Nat := 0xE0

/-- Modelled from the spec: see NOTE_OFF_STATUS. -/
def TIME_CODE_QUARTER_FRAME_STATUS : Nat := 0xF1

/-- Modelled from the spec: see NOTE_OFF_STATUS. -/
def SONG_POSITION_POINTER_STATUS : Nat := 0xF2

/-- Modelled from the spec: see NOTE_OFF_STATUS. -/
def SONG_SELECT_STATUS : Nat := 0xF3

/-- Modelled from the spec: see NOTE_OFF_STATUS. -/
def TUNE_REQUEST_STATUS : Nat := 0xF6

/-- Modelled from the spec: see NOTE_OFF_STATUS. -/
def TIMING_CLOCK_STATUS : Nat := 0xF8

/-- Modelled from the spec: see NOTE_OFF_STATUS. -/
def START_STATUS : Nat := 0xFA

/-- Modelled from the spec: see NOTE_OFF_STATUS. -/
def CONTINUE_STATUS : Nat := 0xFB

/-- Modelled from the spec: see NOTE_OFF_STATUS. -/
def STOP_STATUS : Nat := 0xFC

/-- Modelled from the spec: see NOTE_OFF_STATUS. -/
def ACTIVE_SENSING_STATUS : Nat := 0xFE

/-- Modelled from the spec: see NOTE_OFF_STATUS. -/
def SYSTEM_RESET_STATUS : Nat := 0xFF

/-- Modelled from the spec: see NOTE_OFF_STATUS.  0xF0 per spec section 3. -/
def START_OF_SYSTEM_EXCLUSIVE_STATUS : Nat := 0xF0

/-- Modelled from the spec: see NOTE_OFF_STATUS.  0xF7 per spec section 3.
The source's spelling of the name (with its typo) is kept. -/
def END_OF_SYSTEM_EXCLUSICE_STATUS : Nat := 0xF7

/-- Modelled from the spec: the MidiMessage enum and the bounded integer
types u4/u7/u14 live in src/midi/src/message.rs which is not under src/.
Variants and field widths follow spec section 3: channel is 4-bit,
data fields are 7-bit, pitch-bend and song-position values are 14-bit,
and TimeCodeQuarterFrame carries a 3-bit selector and a 4-bit value.
Bounded fields are Fin types, making out-of-range values unconstructible
as the spec requires. -/
inductive MidiMessage where
  | NoteOff (channel : Fin 16) (note : Fin 128) (velocity : Fin 128)
  | NoteOn (channel : Fin 16) (note : Fin 128) (velocity : Fin 128)
  | PolyKeyPressure (channel : Fin 16) (pressure : Fin 128)
  | ControlChange (channel : Fin 16) (control_number : Fin 128)
      (control_value : Fin 128)
  | ProgramChange (channel : Fin 16) (program_number : Fin 128)
  | ChannelPressure (channel : Fin 16) (pressure : Fin 128)
  | PitchBendChange (channel : Fin 16) (value : Fin 16384)
  | TimeCodeQuarterFrame (message_type : Fin 8) (value : Fin 16)
  | SongPositionPointer (position : Fin 16384)
  | SongSelect (song : Fin 128)
  | TuneRequest
  | TimingClock
  | Start
  | Continue
  | Stop
  | ActiveSensing
  | SystemReset
deriving DecidableEq, Repr

/-- write_channel_status of src/midi/src/atom.rs: the status byte is
status + channel, computed on u8 (hence mod 256). -/
def write_channel_status (w : Sink) (status : Nat) (channel : Fin 16) :
    Except Unit Sink :=
  write_sized w ((status + channel.val) % 256)

/-- write_data of src/midi/src/atom.rs: writes one 7-bit data value as a
byte. -/
def write_data (w : Sink) (data : Fin 128) : Except Unit Sink :=
  write_sized w data.val

/-- write_u14_data of src/midi/src/atom.rs: splits a 14-bit value into
msb = (data AND 0x3F80) SHR 7 and
lsb = data AND 0x7F and writes lsb first, msb second. -/
def write_u14_data (w : Sink) (data : Fin 16384) : Except Unit Sink := do
  let msb : Nat := (data.val &&& 0x3F80) >>> 7
  let lsb : Nat := data.val &&& 0x7F
  let w ← write_sized w lsb
  write_sized w msb

/-- RawMidiMessage::initialize_body of src/midi/src/atom.rs: dispatches on
the MidiMessage variant and writes the status byte followed by the
variant's data bytes, early-returning the first sink failure.  The
TimeCodeQuarterFrame data byte value + (message_type SHL 4) is computed on
u8 (hence mod 256). -/
def RawMidiMessage.initialize_body (w : Sink) (message : MidiMessage) :
    Except Unit Sink :=
  match message with
  | .NoteOff channel note velocity => do
      let w ← write_channel_status w NOTE_OFF_STATUS channel
      let w ← write_data w note
      write_data w velocity
  | .NoteOn channel note velocity => do
      let w ← write_channel_status w NOTE_ON_STATUS channel
      let w ← write_data w note
      write_data w velocity
  | .PolyKeyPressure channel pressure => do
      let w ← write_channel_status w POLY_KEY_PRESSURE_STATUS channel
      write_data w pressure
  | .ControlChange channel control_number control_value => do
      let w ← write_channel_status w CONTROL_CHANGE_STATUS channel
      let w ← write_data w control_number
      write_data w control_value
  | .ProgramChange channel program_number => do
      let w ← write_channel_status w PROGRAM_CHANGE_STATUS channel
      write_data w program_number
  | .ChannelPressure channel pressure => do
      let w ← write_channel_status w CHANNEL_PRESSURE_STATUS channel
      write_data w pressure
  | .PitchBendChange channel value => do
      let w ← write_channel_status w PITCH_BEND_CHANGE_STATUS channel
      write_u14_data w value
  | .TimeCodeQuarterFrame message_type value => do
      let w ← write_sized w TIME_CODE_QUARTER_FRAME_STATUS
      write_sized w ((value.val + (message_type.val <<< 4)) % 256)
  | .SongPositionPointer position => do
      let w ← write_sized w SONG_POSITION_POINTER_STATUS
      write_u14_data w position
  | .SongSelect song => do
      let w ← write_sized w SONG_SELECT_STATUS
      write_data w song
  | .TuneRequest => write_sized w TUNE_REQUEST_STATUS
  | .TimingClock => write_sized w TIMING_CLOCK_STATUS
  | .Start => write_sized w START_STATUS
  | .Continue => write_sized w CONTINUE_STATUS
  | .Stop => write_sized w STOP_STATUS
  | .ActiveSensing => write_sized w ACTIVE_SENSING_STATUS
  | .SystemReset => write_sized w SYSTEM_RESET_STATUS

/-- RawMidiMessage::create_ref of src/midi/src/atom.rs.  The source checks,
in order: length not in 1..=3 is an error; a first byte without the top
bit is an error; then the second-byte check
`(raw_data.len() >= 2) & (raw_data[1] & 0x80 != 0)` and the third-byte
check `(raw_data.len() == 3) & (raw_data[2] & 0x80 != 0)`.  The Rust
operator there is the NON-short-circuiting boolean AND, so raw_data index 1
(resp. index 2) is evaluated even when the length is 1 (resp. at most 2);
that evaluation is an out-of-bounds index, a panic, modelled by the
explicit panic branches.  On success the reference is the slice itself. -/
def RawMidiMessage.create_ref (raw_data : List Nat) :
    DecodeResult (List Nat) :=
  -- A MIDI message may only have one, two or three bytes.
  if raw_data.length > 3 ∨ raw_data.length = 0 then .err
  -- The first byte must be a status byte (index 0 is in bounds here).
  else if raw_data.headD 0 &&& 0x80 = 0 then .err
  -- The second byte must not be a status byte: raw_data index 1 is
  -- evaluated unconditionally, panicking when the length is below 2.
  else if raw_data.length < 2 then .panic
  else if 2 ≤ raw_data.length ∧ raw_data.getD 1 0 &&& 0x80 ≠ 0 then
    .err
  -- The third byte must not be a status byte: raw_data index 2 is
  -- evaluated unconditionally, panicking when the length is below 3.
  else if raw_data.length < 3 then .panic
  else if raw_data.length = 3 ∧ raw_data.getD 2 0 &&& 0x80 ≠ 0 then
    .err
  else .ok raw_data

/-- SystemExclusiveMessage::get_data of src/midi/src/atom.rs: asserts a
length of at least two (a failed assert is a panic, modelled as none) and
returns the bytes between the start and end status byte,
data[1 .. len-1]. -/
def SystemExclusiveMessage.get_data (msg : List Nat) : Option (List Nat) :=
  if 2 ≤ msg.length then
    some ((msg.drop 1).take (msg.length - 1 - 1))
  else
    none

/-- SystemExclusiveMessage::initialize_body of src/midi/src/atom.rs: writes
the start status byte, the payload verbatim in one bulk write, and the end
status byte, early-returning the first sink failure. -/
def SystemExclusiveMessage.initialize_body (w : Sink) (data : List Nat) :
    Except Unit Sink := do
  let w ← write_sized w START_OF_SYSTEM_EXCLUSIVE_STATUS
  let w ← write_raw w data
  write_sized w END_OF_SYSTEM_EXCLUSICE_STATUS

/-- SystemExclusiveMessage::create_ref of src/midi/src/atom.rs: a length
below two is an error; a first byte other than 0xF0 or a last byte other
than 0xF7 is an error; an interior byte with the top bit set is an error;
otherwise the reference (the slice itself) is returned.  The first/last
unwraps in the source cannot fail since the length is at least two. -/
def SystemExclusiveMessage.create_ref (raw_data : List Nat) :
    Except Unit (List Nat) :=
  -- Assuring a minimal length of two bytes.
  if raw_data.length < 2 then Except.error ()
  -- Check the first and the last byte to be the correct status bytes.
  else if raw_data.headD 0 ≠ START_OF_SYSTEM_EXCLUSIVE_STATUS ∨
      raw_data.getLastD 0 ≠ END_OF_SYSTEM_EXCLUSICE_STATUS then
    Except.error ()
  -- Check for interior status bytes, raw_data[1 .. len-1].
  else if ((raw_data.drop 1).take (raw_data.length - 1 - 1)).any
      (fun byte => byte &&& 0x80 != 0) then
    Except.error ()
  else Except.ok raw_data

/-- The atom header of lv2rs-atom (external collaborator): a type id and a
byte size, as read by widen_ref in src/src/scalar.rs. -/
structure AtomHeader where
  atom_type : Nat
  size : Nat
deriving DecidableEq, Repr

/-- widen_ref of src/src/scalar.rs for a scalar atom type T: succeeds
exactly when the header's atom_type equals the URID that the external
CachedMap returns for T's URI and the header's size equals size_of T.
The external map result and size_of T are the parameters urid and
byte_size; the returned reference is the header itself (the source
reinterprets the same memory). -/
def widen_ref (urid : Nat) (byte_size : Nat) (header : AtomHeader) :
    Except Unit AtomHeader :=
  if header.atom_type = urid ∧ header.size = byte_size then
    Except.ok header
  else
    Except.error ()

/-! Helper lemmas shared by several claim theorems. -/

/-- write_sized succeeds and appends its byte when the capacity allows. -/
theorem write_sized_ok (w : Sink) (b : Nat)
    (h : w.written.length + 1 ≤ w.capacity) :
    write_sized w b = Except.ok ⟨w.written ++ [b], w.capacity⟩ := by
  simp [write_sized, h]

/-- write_raw succeeds and appends its bytes when the capacity allows. -/
theorem write_raw_ok (w : Sink) (bs : List Nat)
    (h : w.written.length + bs.length ≤ w.capacity) :
    write_raw w bs = Except.ok ⟨w.written ++ bs, w.capacity⟩ := by
  simp [write_raw, h]

/-- The source computes the u14 msb as (data AND 0x3F80) SHR 7; this equals
the spec's (data SHR 7) AND 0x7F, bit for bit. -/
theorem u14_msb_shift (p : Nat) :
    (p &&& 0x3F80) >>> 7 = (p >>> 7) &&& 0x7F := by
  apply Nat.eq_of_testBit_eq
  intro i
  simp only [Nat.testBit_shiftRight, Nat.testBit_and]
  by_cases h : i < 7
  · have h1 : Nat.testBit 0x3F80 (7 + i) = Nat.testBit 0x7F i := by
      interval_cases i <;> decide
    rw [h1]
  · have h1 : Nat.testBit 0x3F80 (7 + i) = false := by
      apply Nat.testBit_lt_two_pow
      calc (0x3F80 : Nat) < 2 ^ 14 := by norm_num
        _ ≤ 2 ^ (7 + i) := Nat.pow_le_pow_right (by norm_num) (by omega)
    have h2 : Nat.testBit 0x7F i = false := by
      apply Nat.testBit_lt_two_pow
      calc (0x7F : Nat) < 2 ^ 7 := by norm_num
        _ ≤ 2 ^ i := Nat.pow_le_pow_right (by norm_num) (by omega)
    rw [h1, h2]

/-- A byte below 128 has its top bit clear. -/
theorem and_0x80_eq_zero (b : Nat) (h : b < 128) : b &&& 0x80 = 0 := by
  have h7 : b.testBit 7 = false := by
    apply Nat.testBit_lt_two_pow
    calc b < 128 := h
      _ = 2 ^ 7 := by norm_num
  calc b &&& 0x80 = (b.testBit 7).toNat * 2 ^ 7 := by
        simpa using Nat.and_two_pow b 7
    _ = 0 := by rw [h7]; rfl

/-- Claim C1, refuted at the failing inputs: decoding the valid one-byte
message 0xF6 (TuneRequest) and the valid-prefix two-byte slice
[0x90, 0x40] both panic with an out-of-bounds slice index, because the
length guards of the second- and third-byte checks use the
non-short-circuiting boolean AND; the claim says create_ref returns Ok or
a typed failure and never panics, even on slices of length 1 or 2. -/
theorem create_ref_panics_on_short_slices :
    RawMidiMessage.create_ref [0xF6] = DecodeResult.panic ∧
    RawMidiMessage.create_ref [0x90, 0x40] = DecodeResult.panic := by
  constructor <;> rfl

/-- Claim C2, refuted at the failing input: [0xC0, 0x05] is a length-2
slice whose first byte has the top bit set and whose second byte has the
top bit clear, so by the claim create_ref must succeed; instead the code
panics evaluating raw_data index 2 in the third-byte check, whose length
guard uses the non-short-circuiting boolean AND.  create_ref can only ever
return Ok on length-3 slices. -/
theorem create_ref_panics_on_valid_length_two :
    RawMidiMessage.create_ref [0xC0, 0x05] = DecodeResult.panic := by
  rfl

/-- Claim C3: SystemExclusiveMessage::create_ref succeeds on a byte slice
if and only if the length is at least 2, the first byte is 0xF0, the last
byte is 0xF7, and every interior byte has its top bit clear. -/
theorem sysex_create_ref_ok_iff (raw : List Nat) :
    (SystemExclusiveMessage.create_ref raw).isOk = true ↔
      2 ≤ raw.length ∧ raw.headD 0 = 0xF0 ∧ raw.getLastD 0 = 0xF7 ∧
        ∀ b ∈ (raw.drop 1).take (raw.length - 2), b &&& 0x80 = 0 := by
  unfold SystemExclusiveMessage.create_ref
  unfold START_OF_SYSTEM_EXCLUSIVE_STATUS END_OF_SYSTEM_EXCLUSICE_STATUS
  split_ifs with h1 h2 h3
  · refine iff_of_false (by simp [Except.isOk, Except.toBool]) ?_
    rintro ⟨hlen, -, -, -⟩
    omega
  · refine iff_of_false (by simp [Except.isOk, Except.toBool]) ?_
    rintro ⟨-, hf, hl, -⟩
    tauto
  · refine iff_of_false (by simp [Except.isOk, Except.toBool]) ?_
    rintro ⟨-, -, -, hall⟩
    rw [List.any_eq_true] at h3
    obtain ⟨b, hmem, hbit⟩ := h3
    have hb := hall b (by simpa [Nat.sub_sub] using hmem)
    simp [hb] at hbit
  · refine iff_of_true (by simp [Except.isOk, Except.toBool]) ?_
    push_neg at h2
    refine ⟨by omega, h2.1, h2.2, ?_⟩
    intro b hmem
    have h3' : ((raw.drop 1).take (raw.length - 1 - 1)).any
        (fun byte => byte &&& 0x80 != 0) = false := by simpa using h3
    rw [List.any_eq_false] at h3'
    have := h3' b (by simpa [Nat.sub_sub] using hmem)
    simpa using this

/-- Claim C4: every channel-voice variant encodes as one status byte equal
to its base status plus the channel, followed by that variant's data bytes
in the fixed per-variant order (NoteOn: note then velocity; ControlChange:
control-number then control-value; PitchBendChange: 14-bit value split
LSB then MSB); in particular NoteOn with channel 3, note 64, velocity 100
produces the bytes 0x93, 0x40, 0x64. -/
theorem channel_voice_encoding_bytes (c : Fin 16) (a b : Fin 128)
    (p : Fin 16384) :
    RawMidiMessage.initialize_body ⟨[], 3⟩ (.NoteOff c a b) =
        Except.ok ⟨[0x80 + c.val, a.val, b.val], 3⟩ ∧
    RawMidiMessage.initialize_body ⟨[], 3⟩ (.NoteOn c a b) =
        Except.ok ⟨[0x90 + c.val, a.val, b.val], 3⟩ ∧
    RawMidiMessage.initialize_body ⟨[], 3⟩ (.PolyKeyPressure c a) =
        Except.ok ⟨[0xA0 + c.val, a.val], 3⟩ ∧
    RawMidiMessage.initialize_body ⟨[], 3⟩ (.ControlChange c a b) =
        Except.ok ⟨[0xB0 + c.val, a.val, b.val], 3⟩ ∧
    RawMidiMessage.initialize_body ⟨[], 3⟩ (.ProgramChange c a) =
        Except.ok ⟨[0xC0 + c.val, a.val], 3⟩ ∧
    RawMidiMessage.initialize_body ⟨[], 3⟩ (.ChannelPressure c a) =
        Except.ok ⟨[0xD0 + c.val, a.val], 3⟩ ∧
    RawMidiMessage.initialize_body ⟨[], 3⟩ (.PitchBendChange c p) =
        Except.ok ⟨[0xE0 + c.val, p.val &&& 0x7F, (p.val >>> 7) &&& 0x7F],
          3⟩ ∧
    RawMidiMessage.initialize_body ⟨[], 3⟩ (.NoteOn 3 64 100) =
        Except.ok ⟨[0x93, 0x40, 0x64], 3⟩ := by
  have hc := c.isLt
  refine ⟨?_, ?_, ?_, ?_, ?_, ?_, ?_, ?_⟩
  · simp only [RawMidiMessage.initialize_body, write_channel_status,
      NOTE_OFF_STATUS, Nat.mod_eq_of_lt (show 0x80 + c.val < 256 by omega)]
    rfl
  · simp only [RawMidiMessage.initialize_body, write_channel_status,
      NOTE_ON_STATUS, Nat.mod_eq_of_lt (show 0x90 + c.val < 256 by omega)]
    rfl
  · simp only [RawMidiMessage.initialize_body, write_channel_status,
      POLY_KEY_PRESSURE_STATUS,
      Nat.mod_eq_of_lt (show 0xA0 + c.val < 256 by omega)]
    rfl
  · simp only [RawMidiMessage.initialize_body, write_channel_status,
      CONTROL_CHANGE_STATUS,
      Nat.mod_eq_of_lt (show 0xB0 + c.val < 256 by omega)]
    rfl
  · simp only [RawMidiMessage.initialize_body, write_channel_status,
      PROGRAM_CHANGE_STATUS,
      Nat.mod_eq_of_lt (show 0xC0 + c.val < 256 by omega)]
    rfl
  · simp only [RawMidiMessage.initialize_body, write_channel_status,
      CHANNEL_PRESSURE_STATUS,
      Nat.mod_eq_of_lt (show 0xD0 + c.val < 256 by omega)]
    rfl
  · simp only [RawMidiMessage.initialize_body, write_channel_status,
      write_u14_data, PITCH_BEND_CHANGE_STATUS, u14_msb_shift,
      Nat.mod_eq_of_lt (show 0xE0 + c.val < 256 by omega)]
    rfl
  · rfl

/-- Claim C5: write_u14_data emits exactly two bytes, LSB first then MSB,
with lsb = value AND 0x7F and msb = (value SHR 7) AND 0x7F, for every
14-bit value; and PitchBendChange on channel 0 encodes value 0 as
0xE0 0x00 0x00, value 8192 as 0xE0 0x00 0x40 and value 16383 as
0xE0 0x7F 0x7F. -/
theorem u14_encoding_bytes (p : Fin 16384) :
    write_u14_data ⟨[], 2⟩ p =
        Except.ok ⟨[p.val &&& 0x7F, (p.val >>> 7) &&& 0x7F], 2⟩ ∧
    RawMidiMessage.initialize_body ⟨[], 3⟩ (.PitchBendChange 0 0) =
        Except.ok ⟨[0xE0, 0x00, 0x00], 3⟩ ∧
    RawMidiMessage.initialize_body ⟨[], 3⟩ (.PitchBendChange 0 8192) =
        Except.ok ⟨[0xE0, 0x00, 0x40], 3⟩ ∧
    RawMidiMessage.initialize_body ⟨[], 3⟩ (.PitchBendChange 0 16383) =
        Except.ok ⟨[0xE0, 0x7F, 0x7F], 3⟩ := by
  refine ⟨?_, rfl, rfl, rfl⟩
  simp only [write_u14_data, u14_msb_shift]
  rfl

/-- Claim C7: encoding TimeCodeQuarterFrame writes the fixed status byte
0xF1 followed by exactly one data byte of value value + (message_type
SHL 4), for every 3-bit message_type and 4-bit value. -/
theorem time_code_quarter_frame_encoding (mt : Fin 8) (v : Fin 16) :
    RawMidiMessage.initialize_body ⟨[], 2⟩ (.TimeCodeQuarterFrame mt v) =
      Except.ok ⟨[0xF1, v.val + (mt.val <<< 4)], 2⟩ := by
  have h1 := mt.isLt
  have h2 := v.isLt
  have hs : mt.val <<< 4 = mt.val * 16 := by
    rw [Nat.shiftLeft_eq]
  simp only [RawMidiMessage.initialize_body, TIME_CODE_QUARTER_FRAME_STATUS,
    Nat.mod_eq_of_lt (show v.val + (mt.val <<< 4) < 256 by omega)]
  rfl

/-- Binding a successful Except value applies the continuation. -/
theorem except_bind_ok (s : Sink) (f : Sink → Except Unit Sink) :
    (Except.ok s >>= f : Except Unit Sink) = f s := rfl

/-- Claim C6: for every payload of 7-bit bytes, SysEx encode then decode
round-trips: encoding writes 0xF0, the payload verbatim, then 0xF7, and
decoding that byte sequence succeeds with get_data returning the payload. -/
theorem sysex_round_trip (data : List Nat) (h : ∀ b ∈ data, b < 128) :
    SystemExclusiveMessage.initialize_body ⟨[], data.length + 2⟩ data =
        Except.ok ⟨0xF0 :: data ++ [0xF7], data.length + 2⟩ ∧
    SystemExclusiveMessage.create_ref (0xF0 :: data ++ [0xF7]) =
        Except.ok (0xF0 :: data ++ [0xF7]) ∧
    SystemExclusiveMessage.get_data (0xF0 :: data ++ [0xF7]) =
        some data := by
  have hlen : (0xF0 :: data ++ [0xF7]).length = data.length + 2 := by
    simp
  have hhead : (0xF0 :: data ++ [0xF7]).headD 0 = 0xF0 := rfl
  have hlast : (0xF0 :: data ++ [0xF7]).getLastD 0 = 0xF7 :=
    List.getLastD_concat _ _ (0xF0 :: data)
  have hC : ((0xF0 :: data ++ [0xF7]).drop 1).take
      ((0xF0 :: data ++ [0xF7]).length - 1 - 1) = data := by
    show (data ++ [0xF7]).take ((0xF0 :: data ++ [0xF7]).length - 1 - 1)
      = data
    exact List.take_left'
      (by simp only [List.length_cons, List.length_append,
        List.length_nil]; omega)
  have hany : data.any (fun byte => byte &&& 0x80 != 0) = false := by
    rw [List.any_eq_false]
    intro b hb
    simp [and_0x80_eq_zero b (h b hb)]
  refine ⟨?_, ?_, ?_⟩
  · have e1 : write_sized ⟨[], data.length + 2⟩ 0xF0 =
        Except.ok ⟨[0xF0], data.length + 2⟩ :=
      write_sized_ok _ _ (by simp only [List.length_nil]; omega)
    have e2 : write_raw ⟨[0xF0], data.length + 2⟩ data =
        Except.ok ⟨0xF0 :: data, data.length + 2⟩ :=
      write_raw_ok _ _
        (by simp only [List.length_cons, List.length_nil]; omega)
    have e3 : write_sized ⟨0xF0 :: data, data.length + 2⟩ 0xF7 =
        Except.ok ⟨0xF0 :: data ++ [0xF7], data.length + 2⟩ :=
      write_sized_ok _ _ (by simp only [List.length_cons]; omega)
    simp only [SystemExclusiveMessage.initialize_body,
      START_OF_SYSTEM_EXCLUSIVE_STATUS, END_OF_SYSTEM_EXCLUSICE_STATUS,
      e1, except_bind_ok, e2, e3]
  · rw [SystemExclusiveMessage.create_ref]
    rw [if_neg (by rw [hlen]; omega)]
    rw [if_neg (by
      rw [hhead, hlast]
      unfold START_OF_SYSTEM_EXCLUSIVE_STATUS END_OF_SYSTEM_EXCLUSICE_STATUS
      simp)]
    rw [if_neg (by rw [hC, hany]; simp)]
  · rw [SystemExclusiveMessage.get_data]
    rw [if_pos (by rw [hlen]; omega)]
    rw [hC]

/-- Claim C8: the channel-message encode returns Ok for every MidiMessage
value whenever the sink has room for its bytes (at most three), never
failing because of the message value itself. -/
theorem initialize_body_ok_of_capacity (m : MidiMessage) (n : Nat)
    (h : 3 ≤ n) :
    (RawMidiMessage.initialize_body ⟨[], n⟩ m).isOk = true := by
  have h1 : ∀ b : Nat, write_sized ⟨[], n⟩ b = Except.ok ⟨[b], n⟩ :=
    fun b => write_sized_ok _ _ (by simp only [List.length_nil]; omega)
  have h2 : ∀ x b : Nat, write_sized ⟨[x], n⟩ b = Except.ok ⟨[x, b], n⟩ :=
    fun x b => write_sized_ok _ _
      (by simp only [List.length_cons, List.length_nil]; omega)
  have h3 : ∀ x y b : Nat,
      write_sized ⟨[x, y], n⟩ b = Except.ok ⟨[x, y, b], n⟩ :=
    fun x y b => write_sized_ok _ _
      (by simp only [List.length_cons, List.length_nil]; omega)
  cases m <;>
    simp [RawMidiMessage.initialize_body, write_channel_status, write_data,
      write_u14_data, h1, h2, h3, except_bind_ok, Except.isOk,
      Except.toBool]

/-- Witness for claim C8 at the concrete message NoteOn with channel 3,
note 64, velocity 100 and a capacity of 3. -/
theorem initialize_body_ok_of_capacity_witness :
    3 ≤ 3 ∧
      (RawMidiMessage.initialize_body ⟨[], 3⟩
        (MidiMessage.NoteOn 3 64 100)).isOk = true :=
  ⟨Nat.le_refl 3,
    initialize_body_ok_of_capacity (MidiMessage.NoteOn 3 64 100) 3
      (Nat.le_refl 3)⟩

/-- Witness for claim C6 at the concrete payload 0x01 0x02 0x03: its
encoding is 0xF0 0x01 0x02 0x03 0xF7, that sequence decodes successfully,
and get_data returns the payload. -/
theorem sysex_round_trip_witness :
    SystemExclusiveMessage.initialize_body ⟨[], 5⟩ [1, 2, 3] =
        Except.ok ⟨[0xF0, 1, 2, 3, 0xF7], 5⟩ ∧
    SystemExclusiveMessage.create_ref [0xF0, 1, 2, 3, 0xF7] =
        Except.ok [0xF0, 1, 2, 3, 0xF7] ∧
    SystemExclusiveMessage.get_data [0xF0, 1, 2, 3, 0xF7] =
        some [1, 2, 3] :=
  sysex_round_trip [1, 2, 3] (by decide)

/-- Claim C9: the minimal system-exclusive message has an empty payload:
encoding the empty payload produces exactly 0xF0 0xF7, decoding that
two-byte slice succeeds, and get_data on it returns the empty slice. -/
theorem sysex_empty_payload :
    SystemExclusiveMessage.initialize_body ⟨[], 2⟩ [] =
        Except.ok ⟨[0xF0, 0xF7], 2⟩ ∧
    SystemExclusiveMessage.create_ref [0xF0, 0xF7] =
        Except.ok [0xF0, 0xF7] ∧
    SystemExclusiveMessage.get_data [0xF0, 0xF7] = some [] :=
  ⟨rfl, rfl, rfl⟩

/-- Claim C10: widen_ref succeeds on an atom header if and only if the
header's atom_type equals the URID mapped for the scalar type's URI and
the header's size equals the type's byte size; any mismatch yields an
error. -/
theorem widen_ref_ok_iff (urid byte_size : Nat) (header : AtomHeader) :
    (widen_ref urid byte_size header).isOk = true ↔
      header.atom_type = urid ∧ header.size = byte_size := by
  unfold widen_ref
  split_ifs with h
  · exact iff_of_true rfl h
  · exact iff_of_false (by simp [Except.isOk, Except.toBool]) h
